import Mathlib

/-!
Shallow embedding of the data-access layer of the Mavulp/calendar backend
(src/event.rs, src/user.rs, src/util.rs, src/lib.rs, src/schema.rs).

Modelling choices, each tied to the source:

* The `events` and `users` relations are modelled as Lean lists of the row
  records.  The row shape for events is the `Event` struct of src/event.rs
  (the `@generated` src/schema.rs in this snapshot lacks the `created_at` /
  `edited_at` columns that the `Insertable`/`AsChangeset` derives in
  src/event.rs require; the migrations that define the real columns are not
  among the sources, so the column set follows the `Event` struct, which
  agrees with spec sections 3 and 6).
* Machine integers `i64` become `Int`.  The `f32` coordinates are only
  stored and copied in this layer, never computed with, so an `f32` value is
  represented by its 32-bit pattern (`F32 := Int`); equality of patterns is
  exactly "bit-identical".
* Rust `Result<T, Error>` becomes `Except Error T`.  A Rust panic
  (`.expect(..)`) is a distinct outcome, modelled by the `panicked`
  constructor of `Outcome` / `SetupOutcome` where a claim needs it.
* serde deserialization of a sparse JSON body is modelled explicitly: a JSON
  field is absent, null, or a value (`JsonField`); serde maps an `Option<T>`
  struct field to `None` both when the JSON field is absent and when it is
  null, and a `#[serde(skip, default = "unix_timestamp")]` field never reads
  the request and takes the current time.
* diesel's `AsChangeset` derive skips `None` fields of `Option` type (the
  struct has no `treat_none_as_null` annotation) and always sets non-`Option`
  fields; `update ... .get_result` returns the first updated row and fails
  with a diesel `NotFound` error when no row matched, which `.context(..)?`
  converts into the generic internal error.
* SQLite assigns a fresh rowid to an inserted event; it is modelled as
  one greater than the maximum existing id (`nextId`), which is fresh — the
  only property used.
-/

/-- An IEEE-754 single-precision value as stored by this layer: the code
never does float arithmetic, it only moves the 32-bit value between the
request, the struct field and the column, so the value is represented by
its bit pattern. -/
abbrev F32 := Int

/-- Modelled from the spec: src/error.rs is referenced by every source file
but is not among the sources.  The constructors are taken from their uses in
src (`Error::NotFound`, `Error::UserExists`, `Error::TooManyCharacters` in
src/util.rs) together with the taxonomy of spec section 7; the in-repo
comment in src/user.rs (lines 109-112) documents the missing piece: "The
`Error` type we define implements `From` for anyhow::Errors by putting them
into `InternalError`", i.e. every `.context(msg)?` failure becomes the
generic internal error, carried here with its context message. -/
inductive Error where
  | NotFound
  | UserExists
  | TooManyCharacters (field : String) (maximum_length : Nat)
  | InternalError (msg : String)
deriving DecidableEq, Repr

/-- The `Event` row struct of src/event.rs (also the row shape of the
`events` relation, see the header comment). -/
structure Event where
  id : Int
  title : String
  description : Option String
  color : Option String
  start_date : Int
  end_date : Int
  location_lng : Option F32
  location_lat : Option F32
  created_at : Int
  edited_at : Option Int
deriving DecidableEq, Repr

/-- The `User` row struct of src/user.rs. -/
structure User where
  username : String
  created_at : Int
deriving DecidableEq, Repr

/-- One field of a JSON request body: absent, explicitly null, or a value.
This is the wire-level tri-state that serde collapses for `Option` struct
fields. -/
inductive JsonField (α : Type) where
  | absent
  | null
  | value (v : α)
deriving DecidableEq, Repr

/-- serde deserialization of an `Option<T>` struct field: a missing JSON
field defaults to `None`, an explicit JSON `null` also deserializes to
`None`, and a value deserializes to `Some`. -/
def JsonField.deserializeOpt : JsonField α → Option α
  | .absent => none
  | .null => none
  | .value v => some v

/-- The JSON body of a PUT request as the client may send it: one tri-state
slot per writable field of `PutEvent` (src/event.rs lines 175-192).
`edited_at` is `#[serde(skip, ..)]` so the request carries no slot for it. -/
structure PutEventJson where
  title : JsonField String
  description : JsonField String
  color : JsonField String
  start_date : JsonField Int
  end_date : JsonField Int
  location_lng : JsonField F32
  location_lat : JsonField F32
deriving DecidableEq, Repr

/-- The `PutEvent` struct of src/event.rs after deserialization: every
writable field is `Option`, `edited_at` is a plain `i64` filled by the
`unix_timestamp` serde default. -/
structure PutEvent where
  title : Option String
  description : Option String
  color : Option String
  start_date : Option Int
  end_date : Option Int
  location_lng : Option F32
  location_lat : Option F32
  edited_at : Int
deriving DecidableEq, Repr

/-- serde deserialization of a `PutEvent` from a JSON body at time `now`:
each `Option` field collapses absent/null to `None` (`deserializeOpt`);
`edited_at` is `#[serde(skip, default = "unix_timestamp")]`, so it is never
read from the request and is the current time. -/
def deserializePutEvent (j : PutEventJson) (now : Int) : PutEvent :=
  { title := j.title.deserializeOpt
    description := j.description.deserializeOpt
    color := j.color.deserializeOpt
    start_date := j.start_date.deserializeOpt
    end_date := j.end_date.deserializeOpt
    location_lng := j.location_lng.deserializeOpt
    location_lat := j.location_lat.deserializeOpt
    edited_at := now }

/-- diesel `AsChangeset` semantics for `PutEvent` (no `treat_none_as_null`):
an `Option` field that is `None` is skipped (the stored value is kept), a
`Some v` field sets the column to `v`; the non-`Option` `edited_at` field is
always set.  `id` and `created_at` are not fields of `PutEvent` and are
untouched. -/
def PutEvent.applyChangeset (p : PutEvent) (e : Event) : Event :=
  { id := e.id
    title := match p.title with | some v => v | none => e.title
    description := match p.description with | some v => some v | none => e.description
    color := match p.color with | some v => some v | none => e.color
    start_date := match p.start_date with | some v => v | none => e.start_date
    end_date := match p.end_date with | some v => v | none => e.end_date
    location_lng := match p.location_lng with | some v => some v | none => e.location_lng
    location_lat := match p.location_lat with | some v => some v | none => e.location_lat
    created_at := e.created_at
    edited_at := some p.edited_at }

/-- `event::put` (src/event.rs lines 202-216): deserialize the body (the
connection acquisition prefix shared by all handlers is modelled in
`Event.get_all`), run `diesel::update(events.filter(id.eq(id))).set(&req)
.get_result(..)`: every row matching `id` is updated with the changeset, and
the first updated row is returned; when no row matched, `get_result` fails
with diesel's `NotFound` error, which `.context("Failed to update event")?`
turns into the generic internal error (see `Error`). -/
def Event.put (db : List Event) (id : Int) (j : PutEventJson) (now : Int) :
    Except Error (List Event × Event) :=
  let p := deserializePutEvent j now
  let db2 := db.map fun e => if e.id = id then p.applyChangeset e else e
  match db2.filter (fun e => e.id == id) with
  | [] => Except.error (Error.InternalError "Failed to update event")
  | e :: _ => Except.ok (db2, e)

/-- `event::get_by_id` (src/event.rs lines 78-94):
`events.filter(id.eq(id)).first(..).optional()?.ok_or(Error::NotFound)`. -/
def Event.get_by_id (db : List Event) (id : Int) : Except Error Event :=
  match db.filter (fun e => e.id == id) with
  | [] => Except.error Error.NotFound
  | e :: _ => Except.ok e

/-- The JSON body of a POST request (`PostEvent`, src/event.rs lines
101-120).  For the `Option` fields absent and null both deserialize to
`None` and are inserted as NULL, so a plain `Option` is faithful here;
`created_at` is `#[serde(skip, default = "unix_timestamp")]` and has no
slot in the request; `edited_at` is not a field of `PostEvent` at all (it is
commented out in the source). -/
structure PostEventJson where
  title : String
  description : Option String
  color : Option String
  start_date : Int
  end_date : Int
  location_lng : Option F32
  location_lat : Option F32
deriving DecidableEq, Repr

/-- The SQLite rowid handed to a fresh insert, modelled as one more than the
largest existing id (SQLite's default rowid choice); the development only
uses that it differs from every stored id (`nextId_fresh`). -/
def nextId (db : List Event) : Int :=
  db.foldl (fun m e => max m e.id) 0 + 1

/-- `event::post` (src/event.rs lines 131-147): deserialize the body
(`created_at` is filled with the current time by the serde default, never
from the client), then `diesel::insert_into(events).values(&req)
.get_result(..)` inserts the row — the columns of `PostEvent` from the
request, a storage-generated `id`, and no `edited_at` column, which is
therefore NULL — and returns the inserted row. -/
def Event.post (db : List Event) (j : PostEventJson) (now : Int) :
    Except Error (List Event × Event) :=
  let e : Event :=
    { id := nextId db
      title := j.title
      description := j.description
      color := j.color
      start_date := j.start_date
      end_date := j.end_date
      location_lng := j.location_lng
      location_lat := j.location_lat
      created_at := now
      edited_at := none }
  Except.ok (db ++ [e], e)

/-- `event::delete_by_id` (src/event.rs lines 158-168):
`diesel::delete(events.filter(id.eq(id))).execute(..)` removes every row
matching `id` and succeeds whatever the number of removed rows. -/
def Event.delete_by_id (db : List Event) (id : Int) : Except Error (List Event) :=
  Except.ok (db.filter (fun e => !(e.id == id)))

/-- `user::post` (src/user.rs lines 194-282).  The handler makes two
sequential storage calls: the pre-check `users.filter(username.eq(..))
.select(sql::<Bool>("1")).first(..).optional()?` and, if it found nothing,
`diesel::insert_into(users).values(&user).execute(..)`.  Under concurrency
the table may change between the two calls, so the model takes the table
snapshot seen by each call.  A pre-check hit returns `Error::UserExists`; a
duplicate at insert time violates the `users (username)` primary key
(src/schema.rs line 31), so the insert fails with a diesel error that
`.context("Failed to insert user")?` converts into the generic internal
error — exactly what the in-repo comment (src/user.rs lines 204-210) says
happens.  `created_at` is the current time taken from the system clock. -/
def User.post (dbAtCheck dbAtInsert : List User) (username : String) (now : Int) :
    Except Error (List User) :=
  let result := (dbAtCheck.filter (fun u => u.username == username)).head?
  if result.isSome then
    Except.error Error.UserExists
  else if dbAtInsert.any (fun u => u.username == username) then
    Except.error (Error.InternalError "Failed to insert user")
  else
    Except.ok (dbAtInsert ++ [{ username := username, created_at := now }])

/-- Modelled from the spec (section 4.1): the kinds of connection-pool
acquisition failure, `PoolExhausted | ConnectFailed`.  The bb8 pool itself
is outside the sources; only the acquisition result reaches the handlers. -/
inductive PoolError where
  | PoolExhausted
  | ConnectFailed
deriving DecidableEq, Repr

/-- The observable outcome of a handler: a success value, a classified
`Error` returned to the caller, or a Rust panic (the process-crashing
outcome of `.expect(..)`, which returns nothing to the caller). -/
inductive Outcome (α : Type) where
  | ok (value : α)
  | err (e : Error)
  | panicked
deriving DecidableEq, Repr

/-- Whether an outcome is a classified error returned to the caller. -/
def Outcome.isClassifiedErr : Outcome α → Bool
  | .err _ => true
  | _ => false

/-- `event::get_all` (src/event.rs lines 53-62), with the connection
acquisition modelled explicitly — `pool.get().await.expect("can connect to
sqlite")` panics when the pool fails (this acquisition prefix is textually
identical in every handler of src/event.rs and src/user.rs).  A successful
acquisition yields the query's view: either the rows of the `events` table
or a storage fault, which `.context("Failed to load events")?` classifies
into the generic internal error. -/
def Event.get_all (acquire : Except PoolError (Except String (List Event))) :
    Outcome (List Event) :=
  match acquire with
  | Except.error _ => Outcome.panicked
  | Except.ok (Except.error _) => Outcome.err (Error.InternalError "Failed to load events")
  | Except.ok (Except.ok evs) => Outcome.ok evs

/-- `user::get_all` (src/user.rs lines 79-121), modelled exactly as
`Event.get_all`: `pool.get().await.expect(..)` panics on pool failure, a
query fault is classified by `.context("Failed to load users")?`. -/
def User.get_all (acquire : Except PoolError (Except String (List User))) :
    Outcome (List User) :=
  match acquire with
  | Except.error _ => Outcome.panicked
  | Except.ok (Except.error _) => Outcome.err (Error.InternalError "Failed to load users")
  | Except.ok (Except.ok us) => Outcome.ok us

/-- The pool returned by `setup_database`; `migrated` records whether the
embedded migrations have been applied to the backing store the pool serves
(the migration files themselves are not among the sources, so their effect
is abstracted to this flag). -/
structure SqlitePool where
  migrated : Bool
deriving DecidableEq, Repr

/-- The outcome of `setup_database`: a pool, an error returned to `main`,
or a Rust panic (from `.expect(..)`). -/
inductive SetupOutcome where
  | ok (pool : SqlitePool)
  | err (msg : String)
  | panicked
deriving DecidableEq, Repr

/-- `setup_database` (src/lib.rs lines 72-87), parametrised by what each
fallible step does: building the pool (`?` with context "Failed to build
sqlite pool"), acquiring a connection (`.expect("can connect to sqlite")`,
a panic on failure), and `run_pending_migrations(MIGRATIONS)` followed by
`.expect("migrations should be tested to work without error")` — a panic on
migration failure.  Only after the migrations ran successfully is the pool
returned. -/
def setup_database (build : Except String Unit) (acquireOk : Bool)
    (migrations : Except String Unit) : SetupOutcome :=
  match build with
  | Except.error _ => SetupOutcome.err "Failed to build sqlite pool"
  | Except.ok _ =>
    if acquireOk then
      match migrations with
      | Except.error _ => SetupOutcome.panicked
      | Except.ok _ => SetupOutcome.ok { migrated := true }
    else SetupOutcome.panicked

/-- `check_length` (src/util.rs lines 22-38): when the optional field holds
a string whose Rust `len()` — its UTF-8 byte length — exceeds
`maximum_length`, fail with `Error::TooManyCharacters { field: field_name,
maximum_length }`; otherwise return `Ok(())`. -/
def check_length (field_name : String) (field : Option String)
    (maximum_length : Nat) : Except Error Unit :=
  match field with
  | some f =>
    if f.utf8ByteSize > maximum_length then
      Except.error (Error.TooManyCharacters field_name maximum_length)
    else
      Except.ok ()
  | none => Except.ok ()

/-- Decidable equality for `Except`, so that concrete handler results can be
evaluated by `decide`. -/
def Except.decEq [DecidableEq ε] [DecidableEq α] : (a b : Except ε α) → Decidable (a = b)
  | .error x, .error y =>
    if h : x = y then .isTrue (congrArg Except.error h)
    else .isFalse (fun hc => h (by injection hc))
  | .error _, .ok _ => .isFalse (fun hc => Except.noConfusion hc)
  | .ok _, .error _ => .isFalse (fun hc => Except.noConfusion hc)
  | .ok x, .ok y =>
    if h : x = y then .isTrue (congrArg Except.ok h)
    else .isFalse (fun hc => h (by injection hc))

instance [DecidableEq ε] [DecidableEq α] : DecidableEq (Except ε α) := Except.decEq

/-- The body of a PUT request whose every field is absent from the JSON:
the empty sparse patch. -/
def emptyPutJson : PutEventJson :=
  { title := .absent, description := .absent, color := .absent,
    start_date := .absent, end_date := .absent,
    location_lng := .absent, location_lat := .absent }

/-- Concrete stored event used by the C1 counterexample: its description
column holds the text x. -/
def c1Stored : Event :=
  { id := 1, title := "Trip", description := some "x", color := none,
    start_date := 0, end_date := 0, location_lng := none, location_lat := none,
    created_at := 0, edited_at := none }

/-- The row `c1Stored` after the update of the C1 counterexample: only
`edited_at` changed, the description was not cleared. -/
def c1Updated : Event :=
  { id := 1, title := "Trip", description := some "x", color := none,
    start_date := 0, end_date := 0, location_lng := none, location_lat := none,
    created_at := 0, edited_at := some 100 }

/-- The PUT body whose description field is explicitly null and whose other
fields are absent. -/
def c1NullDescriptionPatch : PutEventJson :=
  { title := .absent, description := .null, color := .absent,
    start_date := .absent, end_date := .absent,
    location_lng := .absent, location_lat := .absent }

/-- Concrete existing user row for the C2 theorems. -/
def c2CheckedUser : User := { username := "alice", created_at := 5 }

/-- Concrete stored event for the C4 witness. -/
def c4Event : Event :=
  { id := 7, title := "Trip", description := none, color := some "#ff0000",
    start_date := 3, end_date := 4, location_lng := some 17, location_lat := none,
    created_at := 2, edited_at := none }

/-- A POST body whose title is the empty string (C8). -/
def c8EmptyTitlePost : PostEventJson :=
  { title := "", description := none, color := none, start_date := 0,
    end_date := 0, location_lng := none, location_lat := none }

/-- The row the repository stores for `c8EmptyTitlePost` on an empty table:
its title is the empty string. -/
def c8StoredEvent : Event :=
  { id := 1, title := "", description := none, color := none, start_date := 0,
    end_date := 0, location_lng := none, location_lat := none,
    created_at := 0, edited_at := none }

/-! ## Helper lemmas -/

theorem filter_head_isSome (l : List User) (p : User → Bool) :
    ((l.filter p).head?).isSome = l.any p := by
  induction l with
  | nil => rfl
  | cons a t ih =>
    by_cases h : p a
    · have hb : p a = true := h
      rw [List.filter_cons, if_pos h, List.any_cons, hb]
      simp
    · have hb : p a = false := by simpa using h
      rw [List.filter_cons, if_neg h, ih, List.any_cons, hb, Bool.false_or]

theorem empty_patch_changeset (now : Int) (x : Event) :
    (deserializePutEvent emptyPutJson now).applyChangeset x =
      { x with edited_at := some now } := rfl

theorem filter_id_map_comm (f : Event → Event) (hf : ∀ e : Event, (f e).id = e.id)
    (db : List Event) (id : Int) :
    (db.map f).filter (fun e => e.id == id) = (db.filter (fun e => e.id == id)).map f := by
  have hcomp : ((fun e : Event => e.id == id) ∘ f) = (fun e : Event => e.id == id) := by
    funext e
    simp [Function.comp, hf]
  rw [List.filter_map, hcomp]

theorem foldl_max_init_le (db : List Event) (a : Int) :
    a ≤ db.foldl (fun m e => max m e.id) a := by
  induction db generalizing a with
  | nil => exact le_refl a
  | cons x t ih => exact le_trans (le_max_left a x.id) (ih (max a x.id))

theorem mem_id_le_foldl_max (db : List Event) (a : Int) :
    ∀ e ∈ db, e.id ≤ db.foldl (fun m e => max m e.id) a := by
  induction db generalizing a with
  | nil => intro e he; cases he
  | cons x t ih =>
    intro e he
    rcases List.mem_cons.mp he with rfl | ht
    · exact le_trans (le_max_right a e.id) (foldl_max_init_le t (max a e.id))
    · exact ih (max a x.id) e ht

theorem nextId_fresh (db : List Event) : ∀ e ∈ db, e.id ≠ nextId db := by
  intro e he
  have hle := mem_id_le_foldl_max db 0 e he
  unfold nextId
  omega

/-! ## Claim theorems -/

/-- Claim C1, counterexample: a PUT body whose description field is
explicitly null does not produce a stored record with description null.
The stored description (the text x) survives the update unchanged, so a
present-but-null optional field does not overwrite the stored value as the
claim states. -/
theorem put_null_description_not_cleared :
    Event.put [c1Stored] 1 c1NullDescriptionPatch 100 = Except.ok ([c1Updated], c1Updated)
    ∧ c1NullDescriptionPatch.description = JsonField.null
    ∧ c1Stored.description = some "x"
    ∧ c1Updated.description = some "x"
    ∧ c1Updated.description ≠ none := by decide

/-- Claim C1, amended: for every existing event and every sparse patch,
`event::put` overwrites each field that is present with a non-null value,
and leaves unchanged both an absent field and an explicitly-null optional
field (serde deserialization of the `Option` fields collapses null with
absent, and the changeset skips `None`); `id` and `created_at` are
untouched and `edited_at` is set to the current time. -/
theorem put_merge_semantics (e : Event) (j : PutEventJson) (now : Int) :
    ∃ e2 : Event,
      Event.put [e] e.id j now = Except.ok ([e2], e2)
      ∧ e2.id = e.id
      ∧ e2.title = (match j.title with | .value v => v | _ => e.title)
      ∧ e2.description = (match j.description with | .value v => some v | _ => e.description)
      ∧ e2.color = (match j.color with | .value v => some v | _ => e.color)
      ∧ e2.start_date = (match j.start_date with | .value v => v | _ => e.start_date)
      ∧ e2.end_date = (match j.end_date with | .value v => v | _ => e.end_date)
      ∧ e2.location_lng = (match j.location_lng with | .value v => some v | _ => e.location_lng)
      ∧ e2.location_lat = (match j.location_lat with | .value v => some v | _ => e.location_lat)
      ∧ e2.created_at = e.created_at
      ∧ e2.edited_at = some now := by
  refine ⟨(deserializePutEvent j now).applyChangeset e,
    ?_, rfl, ?_, ?_, ?_, ?_, ?_, ?_, ?_, rfl, rfl⟩
  · unfold Event.put
    simp [PutEvent.applyChangeset]
  · cases h : j.title <;>
      simp [PutEvent.applyChangeset, deserializePutEvent, JsonField.deserializeOpt, h]
  · cases h : j.description <;>
      simp [PutEvent.applyChangeset, deserializePutEvent, JsonField.deserializeOpt, h]
  · cases h : j.color <;>
      simp [PutEvent.applyChangeset, deserializePutEvent, JsonField.deserializeOpt, h]
  · cases h : j.start_date <;>
      simp [PutEvent.applyChangeset, deserializePutEvent, JsonField.deserializeOpt, h]
  · cases h : j.end_date <;>
      simp [PutEvent.applyChangeset, deserializePutEvent, JsonField.deserializeOpt, h]
  · cases h : j.location_lng <;>
      simp [PutEvent.applyChangeset, deserializePutEvent, JsonField.deserializeOpt, h]
  · cases h : j.location_lat <;>
      simp [PutEvent.applyChangeset, deserializePutEvent, JsonField.deserializeOpt, h]

/-- Claim C2, counterexample: when the pre-check misses the existing row
(the row appears between the two storage calls) and the primary-key
constraint rejects the insert, `user::post` fails with the generic internal
storage error, not with `UserExists` — so a duplicate-key insert failure is
mapped to a generic storage error, contrary to the claim. -/
theorem user_post_duplicate_insert_internal_error :
    User.post [] [c2CheckedUser] "alice" 10 =
      Except.error (Error.InternalError "Failed to insert user")
    ∧ User.post [] [c2CheckedUser] "alice" 10 ≠ Except.error Error.UserExists := by decide

/-- Claim C2, amended: a username that the pre-check query finds yields
`UserExists`; a username that the pre-check misses but that violates the
primary-key constraint at insert time yields the generic internal storage
error (the anyhow context of the failed insert), not `UserExists`. -/
theorem user_post_duplicate_paths (dbAtCheck dbAtInsert : List User)
    (username : String) (now : Int) :
    (dbAtCheck.any (fun u => u.username == username) = true →
      User.post dbAtCheck dbAtInsert username now = Except.error Error.UserExists)
    ∧ (dbAtCheck.any (fun u => u.username == username) = false →
        dbAtInsert.any (fun u => u.username == username) = true →
        User.post dbAtCheck dbAtInsert username now =
          Except.error (Error.InternalError "Failed to insert user")) := by
  constructor
  · intro h
    unfold User.post
    simp only [filter_head_isSome, h]
    simp
  · intro h1 h2
    unfold User.post
    simp only [filter_head_isSome, h1, h2]
    simp

/-- Claim C2, witness: both branches of `user_post_duplicate_paths` at
concrete inputs — the pre-check hit gives `UserExists`, the pre-check miss
with a conflicting insert gives the internal error. -/
theorem user_post_duplicate_paths_witness :
    User.post [c2CheckedUser] [c2CheckedUser] "alice" 0 = Except.error Error.UserExists
    ∧ User.post [] [c2CheckedUser] "alice" 0 =
        Except.error (Error.InternalError "Failed to insert user") :=
  ⟨(user_post_duplicate_paths [c2CheckedUser] [c2CheckedUser] "alice" 0).1 (by decide),
   (user_post_duplicate_paths [] [c2CheckedUser] "alice" 0).2 (by decide) (by decide)⟩

/-- Claim C3, counterexample: updating a nonexistent id (999 on an empty
table) fails with the generic internal error, not with the `NotFound`
taxonomy kind that `get_by_id` returns for a missing row. -/
theorem put_missing_row_not_notfound :
    Event.put [] 999 emptyPutJson 0 =
      Except.error (Error.InternalError "Failed to update event")
    ∧ Event.put [] 999 emptyPutJson 0 ≠ Except.error Error.NotFound := by decide

/-- Claim C3, amended: for every id with no matching event row, `event::put`
fails with the generic internal/storage error (the diesel no-row failure of
`get_result` wrapped by the anyhow context), not with `NotFound`. -/
theorem put_missing_row_internal_error (db : List Event) (id : Int)
    (j : PutEventJson) (now : Int)
    (h : db.all (fun e => !(e.id == id)) = true) :
    Event.put db id j now = Except.error (Error.InternalError "Failed to update event") := by
  have hnil : (db.map fun e =>
      if e.id = id then (deserializePutEvent j now).applyChangeset e else e).filter
        (fun e => e.id == id) = [] := by
    rw [List.filter_eq_nil_iff]
    intro a ha
    rcases List.mem_map.mp ha with ⟨x, hx, rfl⟩
    have hx2 := List.all_eq_true.mp h x hx
    by_cases hc : x.id = id
    · simp [hc] at hx2
    · simp [PutEvent.applyChangeset, hc]
  unfold Event.put
  simp only [hnil]

/-- Claim C3, witness: `put_missing_row_internal_error` at the concrete
empty table and id 999. -/
theorem put_missing_row_internal_error_witness :
    Event.put [] 999 emptyPutJson 5 =
      Except.error (Error.InternalError "Failed to update event") :=
  put_missing_row_internal_error [] 999 emptyPutJson 5 (by decide)

/-- Claim C4: updating an existing event with the empty patch succeeds and
produces the table in which only the matched row changed, and only in its
`edited_at` field, set to the current time; the returned row is the stored
row with every other field bit-identical. -/
theorem put_empty_patch_only_edited_at (db : List Event) (id : Int) (e : Event) (now : Int)
    (h : db.filter (fun x => x.id == id) = [e]) :
    Event.put db id emptyPutJson now =
      Except.ok (db.map fun x => if x.id = id then { x with edited_at := some now } else x,
                 { e with edited_at := some now }) := by
  have heid : e.id = id := by
    have : e ∈ db.filter (fun x => x.id == id) := by rw [h]; exact List.mem_singleton.mpr rfl
    simpa using (List.mem_filter.mp this).2
  have hf : ∀ x : Event,
      ((fun x => if x.id = id then { x with edited_at := some now } else x) x).id = x.id := by
    intro x; by_cases hc : x.id = id <;> simp [hc]
  unfold Event.put
  simp only [empty_patch_changeset]
  rw [filter_id_map_comm _ hf db id, h]
  simp [heid]

/-- Claim C4, witness: the empty patch on the concrete stored event
`c4Event` changes only `edited_at`. -/
theorem put_empty_patch_only_edited_at_witness :
    Event.put [c4Event] 7 emptyPutJson 5 =
      Except.ok ([{ c4Event with edited_at := some 5 }], { c4Event with edited_at := some 5 }) := by
  have := put_empty_patch_only_edited_at [c4Event] 7 c4Event 5 (by decide)
  simpa using this

/-- Claim C5: creating an event stores and returns a record equal to the
request fields plus a storage-generated id and `created_at` equal to the
current time (both server-assigned, never read from the request body, whose
deserialization has no slot for them), with `edited_at` absent; a
subsequent `get_by_id` with the returned id yields the same record. -/
theorem post_then_get_by_id (db : List Event) (j : PostEventJson) (now : Int) :
    ∃ (db2 : List Event) (e : Event),
      Event.post db j now = Except.ok (db2, e)
      ∧ db2 = db ++ [e]
      ∧ e.title = j.title ∧ e.description = j.description ∧ e.color = j.color
      ∧ e.start_date = j.start_date ∧ e.end_date = j.end_date
      ∧ e.location_lng = j.location_lng ∧ e.location_lat = j.location_lat
      ∧ e.created_at = now ∧ e.edited_at = none
      ∧ Event.get_by_id db2 e.id = Except.ok e := by
  refine ⟨_, _, rfl, rfl, rfl, rfl, rfl, rfl, rfl, rfl, rfl, rfl, rfl, ?_⟩
  unfold Event.get_by_id
  have h1 : db.filter (fun x => x.id == nextId db) = [] := by
    rw [List.filter_eq_nil_iff]
    intro a ha
    simpa using nextId_fresh db a ha
  rw [List.filter_append, h1]
  simp

/-- Claim C6: deleting by id always succeeds whether or not a matching row
exists, a second delete of the same id succeeds and leaves the table
unchanged (idempotence), and a subsequent `get_by_id` for that id returns
`NotFound`. -/
theorem delete_idempotent_then_get_not_found (db : List Event) (id : Int) :
    ∃ db2 : List Event,
      Event.delete_by_id db id = Except.ok db2
      ∧ Event.delete_by_id db2 id = Except.ok db2
      ∧ Event.get_by_id db2 id = Except.error Error.NotFound := by
  refine ⟨db.filter (fun e => !(e.id == id)), rfl, ?_, ?_⟩
  · unfold Event.delete_by_id
    congr 1
    rw [List.filter_filter]
    congr 1
    funext e
    cases h : (e.id == id) <;> simp [h]
  · unfold Event.get_by_id
    have hnil : (db.filter (fun e => !(e.id == id))).filter (fun e => e.id == id) = [] := by
      rw [List.filter_filter]
      have hfalse : (fun a : Event => a.id == id && !(a.id == id)) = fun _ : Event => false := by
        funext a
        cases h : (a.id == id) <;> simp [h]
      simp [hfalse]
    rw [hnil]

/-- Claim C7, counterexample: when the pool fails with `PoolExhausted`, the
`event::get_all` operation panics (the `.expect` call) instead of returning
a classified error — the failure escapes classification by crashing the
operation. -/
theorem get_all_pool_failure_panics :
    (Event.get_all (Except.error PoolError.PoolExhausted)).isClassifiedErr = false
    ∧ Event.get_all (Except.error PoolError.PoolExhausted) = Outcome.panicked :=
  ⟨rfl, rfl⟩

/-- Claim C7, amended: a pool-acquisition failure of any kind makes the
operation panic rather than return a classified error, while a storage
fault after a successful acquisition is classified into the generic
internal error of the taxonomy. -/
theorem pool_failure_panics_query_fault_classified (pe : PoolError) (msg : String) :
    Event.get_all (Except.error pe) = Outcome.panicked
    ∧ User.get_all (Except.error pe) = Outcome.panicked
    ∧ Event.get_all (Except.ok (Except.error msg)) =
        Outcome.err (Error.InternalError "Failed to load events")
    ∧ User.get_all (Except.ok (Except.error msg)) =
        Outcome.err (Error.InternalError "Failed to load users") :=
  ⟨rfl, rfl, rfl, rfl⟩

/-- Claim C8, counterexample: `event::post` accepts an input whose title is
the empty string and stores it — no `ValidationError` is raised, so the
non-empty-title invariant does not hold for stored events. -/
theorem post_empty_title_stored :
    Event.post [] c8EmptyTitlePost 0 = Except.ok ([c8StoredEvent], c8StoredEvent)
    ∧ c8StoredEvent.title = "" := by decide

/-- Claim C8, amended: event creation performs no title validation: for
every table state and every input with empty title, the insert succeeds and
the stored row has the empty title. -/
theorem post_accepts_empty_title (db : List Event) (d c : Option String)
    (sd ed : Int) (lng lat : Option F32) (now : Int) :
    ∃ (db2 : List Event) (e : Event),
      Event.post db
        { title := "", description := d, color := c, start_date := sd,
          end_date := ed, location_lng := lng, location_lat := lat } now
        = Except.ok (db2, e)
      ∧ db2 = db ++ [e] ∧ e.title = "" :=
  ⟨_, _, rfl, rfl, rfl⟩

/-- Claim C9: when applying the migrations fails, `setup_database` never
returns a pool (the `.expect` makes startup fatal), and whenever it does
return a pool the migrations have run successfully first. -/
theorem setup_database_migration_failure_fatal (build : Except String Unit)
    (acquireOk : Bool) (msg : String) (m : Except String Unit) (p : SqlitePool) :
    setup_database build acquireOk (Except.error msg) ≠ SetupOutcome.ok p
    ∧ (setup_database build acquireOk m = SetupOutcome.ok p →
        m = Except.ok () ∧ p.migrated = true) := by
  constructor
  · cases build <;> cases acquireOk <;> simp [setup_database]
  · intro hp
    cases build with
    | error b => simp [setup_database] at hp
    | ok b =>
      cases acquireOk with
      | false => simp [setup_database] at hp
      | true =>
        cases m with
        | error msg2 => simp [setup_database] at hp
        | ok u =>
          simp [setup_database] at hp
          refine ⟨rfl, ?_⟩
          rw [← hp]

/-- Claim C9, witness: `setup_database_migration_failure_fatal` at concrete
inputs — a failed migration run does not produce the pool, and the
successful run satisfies the implication. -/
theorem setup_database_migration_failure_fatal_witness :
    setup_database (Except.ok ()) true (Except.error "migration step failed") ≠
      SetupOutcome.ok { migrated := true }
    ∧ ((Except.ok () : Except String Unit) = Except.ok ()
        ∧ (SqlitePool.mk true).migrated = true) :=
  ⟨(setup_database_migration_failure_fatal (Except.ok ()) true "migration step failed"
      (Except.ok ()) { migrated := true }).1,
   (setup_database_migration_failure_fatal (Except.ok ()) true "migration step failed"
      (Except.ok ()) { migrated := true }).2 rfl⟩

/-- Claim C10: `check_length` returns `Ok(())` exactly when the field is
`None` or the byte length of the contained string is at most
`maximum_length`; its only other outcome is `TooManyCharacters` carrying
the given field name and maximum length. -/
theorem check_length_ok_iff (n : String) (f : Option String) (m : Nat) :
    (check_length n f m = Except.ok () ↔
      f = none ∨ ∃ s, f = some s ∧ s.utf8ByteSize ≤ m)
    ∧ (check_length n f m = Except.ok ()
        ∨ check_length n f m = Except.error (Error.TooManyCharacters n m)) := by
  cases f with
  | none => simp [check_length]
  | some s =>
    by_cases h : s.utf8ByteSize > m
    · constructor
      · simp [check_length, h]
      · simp [check_length, h]
    · constructor
      · simp [check_length, h]
        omega
      · simp [check_length, h]

/-- Claim C10, witness: `check_length_ok_iff` at concrete inputs — a
four-byte string over a three-byte limit is rejected with the field name
and the limit, a two-byte string is accepted. -/
theorem check_length_ok_iff_witness :
    check_length "description" (some "abcd") 3 =
      Except.error (Error.TooManyCharacters "description" 3)
    ∧ check_length "description" (some "ab") 3 = Except.ok () := by
  constructor
  · exact (check_length_ok_iff "description" (some "abcd") 3).2.resolve_left (by decide)
  · rcases (check_length_ok_iff "description" (some "ab") 3).2 with h | h
    · exact h
    · exact absurd h (by decide)
